import Mathlib

/-!
Shallow embedding of the load-balancer lifecycle reconciliation core of
terraform-provider-baremetal (package `lb`, files `loadbalancer_resource.go`
and `loadbalancer_resource_crud.go`), together with theorems settling the
frozen claims about its specification.

Conventions of the embedding:
- Go strings are Lean `String`; `strings.HasPrefix` is embedded as `hasPre`
  (prefix comparison on the character sequence).
- The external control-plane client (`client.BareMetalClient`, backed by the
  baremetal SDK) is a record of response functions.  Successive remote calls
  may answer differently over time, so the observing functions take a call
  counter (`clock`) that the embedding increments after every client call.
  A client call either yields a value or an error (`Except Err _`): per the
  Go SDK convention, an erroring call yields no value (the Go pointer result
  is `nil`).
- The mutable `schema.ResourceData` field map is the record `ResourceData`;
  `SetId`/`Id` act on its `rid` field, `Set`/`Get` on the named fields.
- Go `panic` is a distinct failure mode from an error return
  (`GoFail.panicked` vs `GoFail.err`): a panic aborts the lifecycle call
  without running any of the remaining error handling.
- Every state-mutating operation takes and returns the whole mutable state
  `Sys` (the crud struct plus the field map), paired with an optional
  failure, mirroring Go's in-place mutation plus error return.
-/

namespace LB

/-- Embeds the error values the external client can produce, plus the errors
the poller itself generates.  `notFound` is the distinguished "resource does
not exist" condition (spec section 7); `svc` is any other client/transport
error. -/
inductive Err where
  | notFound : Err
  | svc : String → Err
  | timeout : Err
  | unexpectedState : String → Err
deriving DecidableEq, Repr

/-- A failed step of a lifecycle call: either a Go error return, or a Go
panic (which aborts the call, skipping all remaining error handling). -/
inductive GoFail where
  | err : Err → GoFail
  | panicked : String → GoFail
deriving DecidableEq, Repr

/-- Embeds baremetal.WorkRequest (the fields read by this package:
ID, State, LoadBalancerID). -/
structure WorkRequest where
  id : String
  state : String
  loadBalancerID : String
deriving DecidableEq, Repr

/-- Embeds one entry of baremetal.LoadBalancer.IPAddresses (the field read
by this package: IPAddress). -/
structure IPAddr where
  ipAddress : String
deriving DecidableEq, Repr

/-- Embeds the creation timestamp (Go time.Time) by its fixed textual
rendering: `str` is what `TimeCreated.String()` returns. -/
structure Time where
  str : String
deriving DecidableEq, Repr

/-- Embeds baremetal.LoadBalancer (the fields read by this package). -/
structure LoadBalancer where
  id : String
  compartmentID : String
  displayName : String
  shape : String
  subnetIDs : List String
  state : String
  timeCreated : Time
  ipAddresses : List IPAddr
deriving DecidableEq, Repr

/-- Embeds the schema.ResourceData field map of the load-balancer resource:
`rid` is the identifier slot (SetId/Id), the other fields are the schema's
named fields; `timeoutCreate`/`timeoutDelete` embed the configured
create/delete timeouts (as a maximum number of poll refreshes). -/
structure ResourceData where
  rid : String
  compartment_id : String
  display_name : String
  shape : String
  subnet_ids : List String
  id_field : String
  state : String
  time_created : String
  ip_addresses : List String
  timeoutCreate : Nat
  timeoutDelete : Nat
deriving DecidableEq, Repr

/-- Embeds the mutable state of one lifecycle call: the LoadBalancerResourceCrud
struct (WorkRequest, Resource) plus its ResourceData, plus the call counter
used to index successive client responses. -/
structure Sys where
  d : ResourceData
  workRequest : Option WorkRequest
  resource : Option LoadBalancer
  clock : Nat
deriving DecidableEq, Repr

/-- Embeds client.BareMetalClient (external collaborator, spec section 6) as
a record of response functions; the observing calls take the call counter so
that successive polls may observe different answers. -/
structure Client where
  createLoadBalancer : String → String → List String → String → Except Err String
  getWorkRequest : Nat → String → Except Err WorkRequest
  getLoadBalancer : Nat → String → Except Err LoadBalancer
  updateLoadBalancer : String → String → Except Err String
  deleteLoadBalancer : String → Except Err String

/-- Embeds the SDK constant baremetal.WorkRequestSucceeded.  The exact
spelling of these SDK state constants is external to the repository; they are
used only as pairwise-distinct opaque tokens. -/
def WorkRequestSucceeded : String := "SUCCEEDED"

/-- Embeds the SDK constant baremetal.ResourceWaitingForWorkRequest (the
spec's "Waiting" pending state). -/
def ResourceWaitingForWorkRequest : String := "WAITING_FOR_WORK_REQUEST"

/-- Embeds the SDK constant baremetal.ResourceCreating (the spec's
"Provisioning" pending state). -/
def ResourceCreating : String := "CREATING"

/-- Embeds the SDK constant baremetal.ResourceActive. -/
def ResourceActive : String := "ACTIVE"

/-- Embeds the SDK constant baremetal.ResourceDeleting. -/
def ResourceDeleting : String := "DELETING"

/-- Embeds the SDK constant baremetal.ResourceDeleted. -/
def ResourceDeleted : String := "DELETED"

/-- Embeds Go strings.HasPrefix: the character sequence of `p` is an initial
segment of the character sequence of `s`. -/
def hasPre (s p : String) : Bool :=
  p.data.isPrefixOf s.data

/-- Panic message stem of loadbalancer_resource_crud.go:160 and :193 (the
formatted struct dump of the Go message is elided).  The spec's error
taxonomy (sections 7 and 9) calls this failure InvalidState. -/
def msgEmptyID : String := "LoadBalancer had empty ID"

/-- Panic message stem of loadbalancer_resource_crud.go:176.  The spec's
taxonomy (section 7) calls this failure InconsistentResponse. -/
def msgEmptyLoadBalancerID : String := "WorkRequest had empty LoadBalancerID"

/-- Panic message stem of loadbalancer_resource_crud.go:189.  The spec's
taxonomy (sections 7 and 9) calls this failure InvalidState. -/
def msgBadLoadBalancerID : String := "Cannot request loadbalancer with this ID"

/-- Message of the Go runtime panic raised at loadbalancer_resource_crud.go:172
when `s.WorkRequest` is nil because the preceding GetWorkRequest call at :170
returned an error (and hence a nil work request). -/
def msgNilWorkRequest : String := "runtime error: invalid memory address or nil pointer dereference"

/-- Embeds LoadBalancerResourceCrud.State (loadbalancer_resource_crud.go
lines 274-283): the resource's state if a resource is present, else the work
request's state if one is present, else the empty string. -/
def State (s : Sys) : String :=
  match s.resource with
  | some r => r.state
  | none =>
    match s.workRequest with
    | some wr => wr.state
    | none => ""

/-- Embeds LoadBalancerResourceCrud.ID (loadbalancer_resource_crud.go lines
131-151): the resource ID when a resource with non-empty ID is present; else
the work request's LoadBalancerID when the work request succeeded, or its own
ID otherwise; else the empty string. -/
def ID (s : Sys) : String :=
  match s.resource with
  | some r =>
    if r.id ≠ "" then r.id
    else
      match s.workRequest with
      | some wr => if wr.state = WorkRequestSucceeded then wr.loadBalancerID else wr.id
      | none => ""
  | none =>
    match s.workRequest with
    | some wr => if wr.state = WorkRequestSucceeded then wr.loadBalancerID else wr.id
    | none => ""

/-- Embeds LoadBalancerResourceCrud.VoidState (loadbalancer_resource_crud.go
lines 285-287): clears the identifier slot. -/
def VoidState (s : Sys) : Sys :=
  { s with d := { s.d with rid := "" } }

/-- Modelled from the spec: crud.FilterMissingResourceError (package `crud`
of this repository, not present under src/).  Spec sections 7 and 4.4: the
distinguished NotFound condition is absorbed — the identity is cleared and
the error replaced by success; every other error is left unchanged. -/
def FilterMissingResourceError (s : Sys) (e : Err) : Sys × Option Err :=
  if e = Err.notFound then (VoidState s, none) else (s, some e)

/-- Embeds LoadBalancerResourceCrud.SetData (loadbalancer_resource_crud.go
lines 201-219): a no-op unless a resource with a non-empty ID is cached, in
which case it overwrites the identifier and the eight named fields from the
resource, extracting the address strings in order. -/
def SetData (s : Sys) : Sys :=
  match s.resource with
  | some r =>
    if r.id ≠ "" then
      { s with d := { s.d with
          rid := r.id,
          compartment_id := r.compartmentID,
          display_name := r.displayName,
          shape := r.shape,
          subnet_ids := r.subnetIDs,
          id_field := r.id,
          state := r.state,
          time_created := r.timeCreated.str,
          ip_addresses := r.ipAddresses.map (fun a => a.ipAddress) } }
    else s
  | none => s

/-- Embeds lines 188-197 of LoadBalancerResourceCrud.Get (the fall-through
after the work-request branch): panic unless the identifier carries the
resource prefix, then fetch the load balancer, assigning the (possibly nil)
result to `resource` and returning the fetch error, if any. -/
def fetchResource (c : Client) (id : String) (s : Sys) : Sys × Option GoFail :=
  if hasPre id "ocid1.loadbalancer." = false then
    (s, some (GoFail.panicked msgBadLoadBalancerID))
  else if id = "" then
    (s, some (GoFail.panicked msgEmptyID))
  else
    match c.getLoadBalancer s.clock id with
    | Except.error e => ({ s with resource := none, clock := s.clock + 1 }, some (GoFail.err e))
    | Except.ok lb => ({ s with resource := some lb, clock := s.clock + 1 }, none)

/-- Embeds LoadBalancerResourceCrud.Get (loadbalancer_resource_crud.go lines
155-198).  Panics on an empty identifier.  On a work-request-prefixed
identifier: refreshes the work request (a failed fetch leaves a nil work
request, so the immediate `s.WorkRequest.State` read at line 172 is a nil
dereference panic), persists its state, and on success performs the one-time
handoff (adopt LoadBalancerID, clear the cached work request) before falling
through to the resource fetch; otherwise it short-circuits out with no error.
On the (possibly adopted) identifier it fetches the resource via
`fetchResource`. -/
def Get (c : Client) (s : Sys) : Sys × Option GoFail :=
  let id := s.d.rid
  if id = "" then (s, some (GoFail.panicked msgEmptyID))
  else if hasPre id "ocid1.loadbalancerworkrequest." then
    match c.getWorkRequest s.clock id with
    | Except.error _ =>
      ({ s with workRequest := none, clock := s.clock + 1 },
        some (GoFail.panicked msgNilWorkRequest))
    | Except.ok wr =>
      let s1 : Sys := { s with workRequest := some wr, clock := s.clock + 1,
                               d := { s.d with state := wr.state } }
      if wr.state = WorkRequestSucceeded then
        if wr.loadBalancerID = "" then
          (s1, some (GoFail.panicked msgEmptyLoadBalancerID))
        else
          fetchResource c wr.loadBalancerID
            { s1 with workRequest := none, d := { s1.d with rid := wr.loadBalancerID } }
      else (s1, none)
  else fetchResource c id s

/-- Modelled from the spec: resource.StateChangeConf.WaitForState of the
external framework (the State Poller, spec section 4.3).  Invokes `refresh`
up to `fuel` times (`fuel` embeds the configured timeout as a bound on the
number of refreshes): a refresh failure propagates immediately; a state in
`target` is success; a state in `pending` continues polling; any other state
fails with UnexpectedState; exhausted fuel fails with Timeout. -/
def waitFor (pending target : List String) (refresh : Sys → Sys × Option GoFail)
    (stateOf : Sys → String) : Nat → Sys → Sys × Option GoFail
  | 0, s => (s, some (GoFail.err Err.timeout))
  | Nat.succ n, s =>
    match refresh s with
    | (s', some f) => (s', some f)
    | (s', none) =>
      if target.contains (stateOf s') then (s', none)
      else if pending.contains (stateOf s') then
        waitFor pending target refresh stateOf n s'
      else (s', some (GoFail.err (Err.unexpectedState (stateOf s'))))

/-- Embeds LoadBalancerResourceCrud.WaitForCreatedState
(loadbalancer_resource_crud.go lines 221-245): poll Get with
pending={WaitingForWorkRequest, Creating}, target={Active} and the create
timeout; on a polling error, filter the missing-resource condition and
return what remains. -/
def WaitForCreatedState (c : Client) (s : Sys) : Sys × Option GoFail :=
  match waitFor [ResourceWaitingForWorkRequest, ResourceCreating] [ResourceActive]
      (Get c) State s.d.timeoutCreate s with
  | (s', some (GoFail.err e)) =>
    let p := FilterMissingResourceError s' e
    (p.1, p.2.map GoFail.err)
  | (s', some (GoFail.panicked m)) => (s', some (GoFail.panicked m))
  | (s', none) => (s', none)

/-- Embeds LoadBalancerResourceCrud.WaitForDeletedState
(loadbalancer_resource_crud.go lines 247-271): poll Get with
pending={WaitingForWorkRequest, Deleting}, target={Deleted} and the delete
timeout; on a polling error, filter the missing-resource condition and
return what remains. -/
def WaitForDeletedState (c : Client) (s : Sys) : Sys × Option GoFail :=
  match waitFor [ResourceWaitingForWorkRequest, ResourceDeleting] [ResourceDeleted]
      (Get c) State s.d.timeoutDelete s with
  | (s', some (GoFail.err e)) =>
    let p := FilterMissingResourceError s' e
    (p.1, p.2.map GoFail.err)
  | (s', some (GoFail.panicked m)) => (s', some (GoFail.panicked m))
  | (s', none) => (s', none)

/-- Embeds LoadBalancerResourceCrud.Create (loadbalancer_resource_crud.go
lines 28-70): issue the create call from the field map, fetch the returned
work request and cache it, persist the composite state, set the identifier
(required for state refresh), wait for the created state, then set the final
identifier and materialize the fields. -/
def Create (c : Client) (s : Sys) : Sys × Option GoFail :=
  match c.createLoadBalancer s.d.compartment_id s.d.shape s.d.subnet_ids s.d.display_name with
  | Except.error e => ({ s with clock := s.clock + 1 }, some (GoFail.err e))
  | Except.ok workReqID =>
    let s1 : Sys := { s with clock := s.clock + 1 }
    match c.getWorkRequest s1.clock workReqID with
    | Except.error e => ({ s1 with clock := s1.clock + 1 }, some (GoFail.err e))
    | Except.ok wr =>
      let s2 : Sys := { s1 with workRequest := some wr, clock := s1.clock + 1 }
      let s3 : Sys := { s2 with d := { s2.d with state := State s2 } }
      let s4 : Sys := { s3 with d := { s3.d with rid := ID s3 } }
      match WaitForCreatedState c s4 with
      | (s5, some f) => (s5, some f)
      | (s5, none) =>
        let s6 : Sys := { s5 with d := { s5.d with rid := ID s5 } }
        (SetData s6, none)

/-- Embeds LoadBalancerResourceCrud.Read (loadbalancer_resource_crud.go
lines 72-80): Get, filtering the missing-resource condition on error, then
materialize the fields on success. -/
def Read (c : Client) (s : Sys) : Sys × Option GoFail :=
  match Get c s with
  | (s', some (GoFail.err e)) =>
    let p := FilterMissingResourceError s' e
    (p.1, p.2.map GoFail.err)
  | (s', some (GoFail.panicked m)) => (s', some (GoFail.panicked m))
  | (s', none) => (SetData s', none)

/-- Embeds the display-name update option assembly of
LoadBalancerResourceCrud.Update (loadbalancer_resource_crud.go lines 86-89):
GetOk yields the field only when it is non-zero; otherwise the option keeps
its zero value. -/
def updateOptionsDisplayName (d : ResourceData) : String :=
  if d.display_name ≠ "" then d.display_name else ""

/-- Embeds LoadBalancerResourceCrud.Update (loadbalancer_resource_crud.go
lines 83-106): issue the update call with the display-name option, fetch and
cache the returned work request, materialize, and return — with no poll to a
terminal state. -/
def Update (c : Client) (s : Sys) : Sys × Option GoFail :=
  match c.updateLoadBalancer s.d.rid (updateOptionsDisplayName s.d) with
  | Except.error e => ({ s with clock := s.clock + 1 }, some (GoFail.err e))
  | Except.ok workReqID =>
    let s1 : Sys := { s with clock := s.clock + 1 }
    match c.getWorkRequest s1.clock workReqID with
    | Except.error e => ({ s1 with clock := s1.clock + 1 }, some (GoFail.err e))
    | Except.ok wr =>
      let s2 : Sys := { s1 with workRequest := some wr, clock := s1.clock + 1 }
      (SetData s2, none)

/-- Embeds LoadBalancerResourceCrud.Delete (loadbalancer_resource_crud.go
lines 109-128): issue the delete call, fetch and cache the returned work
request, wait for the deleted state; on a wait error filter the
missing-resource condition, otherwise void the identifier. -/
def Delete (c : Client) (s : Sys) : Sys × Option GoFail :=
  match c.deleteLoadBalancer s.d.rid with
  | Except.error e => ({ s with clock := s.clock + 1 }, some (GoFail.err e))
  | Except.ok workReqID =>
    let s1 : Sys := { s with clock := s.clock + 1 }
    match c.getWorkRequest s1.clock workReqID with
    | Except.error e => ({ s1 with clock := s1.clock + 1 }, some (GoFail.err e))
    | Except.ok wr =>
      let s2 : Sys := { s1 with workRequest := some wr, clock := s1.clock + 1 }
      match WaitForDeletedState c s2 with
      | (s3, some (GoFail.err e)) =>
        let p := FilterMissingResourceError s3 e
        (p.1, p.2.map GoFail.err)
      | (s3, some (GoFail.panicked m)) => (s3, some (GoFail.panicked m))
      | (s3, none) => (VoidState s3, none)

/-- Embeds createLoadBalancer (loadbalancer_resource.go lines 62-68): a fresh
crud context over the field map, then Create. -/
def createLoadBalancer (c : Client) (d : ResourceData) : Sys × Option GoFail :=
  Create c { d := d, workRequest := none, resource := none, clock := 0 }

/-- Embeds readLoadBalancer (loadbalancer_resource.go lines 70-76): a fresh
crud context over the field map, then Read. -/
def readLoadBalancer (c : Client) (d : ResourceData) : Sys × Option GoFail :=
  Read c { d := d, workRequest := none, resource := none, clock := 0 }

/-- Embeds updateLoadBalancer (loadbalancer_resource.go lines 78-84): a fresh
crud context over the field map, then Update. -/
def updateLoadBalancer (c : Client) (d : ResourceData) : Sys × Option GoFail :=
  Update c { d := d, workRequest := none, resource := none, clock := 0 }

/-- Embeds deleteLoadBalancer (loadbalancer_resource.go lines 86-92): a fresh
crud context over the field map, then Delete. -/
def deleteLoadBalancer (c : Client) (d : ResourceData) : Sys × Option GoFail :=
  Delete c { d := d, workRequest := none, resource := none, clock := 0 }

/-! Concrete data used to instantiate the theorems below. -/

/-- A fully populated provisioned load balancer. -/
def lb1 : LoadBalancer :=
  { id := "ocid1.loadbalancer.1", compartmentID := "c1", displayName := "lb1",
    shape := "100Mbps", subnetIDs := ["s1", "s2"], state := ResourceActive,
    timeCreated := { str := "2017-09-22 10:22:33 +0000 UTC" },
    ipAddresses := [{ ipAddress := "10.0.0.1" }] }

/-- The field map of the end-to-end create scenario: the four required inputs
populated, computed fields still empty, identifier not yet assigned. -/
def d1 : ResourceData :=
  { rid := "", compartment_id := "c1", display_name := "lb1", shape := "100Mbps",
    subnet_ids := ["s1", "s2"], id_field := "", state := "", time_created := "",
    ip_addresses := [], timeoutCreate := 4, timeoutDelete := 4 }

/-- A client realizing the end-to-end create scenario: the create call yields
the work-request handle, whose status is first Waiting and then Succeeded
with the resource handle, and the resource fetch yields the Active resource. -/
def c1 : Client :=
  { createLoadBalancer := fun _ _ _ _ => Except.ok "ocid1.loadbalancerworkrequest.1",
    getWorkRequest := fun t _ =>
      if t ≤ 1 then
        Except.ok { id := "ocid1.loadbalancerworkrequest.1",
                    state := ResourceWaitingForWorkRequest, loadBalancerID := "" }
      else
        Except.ok { id := "ocid1.loadbalancerworkrequest.1",
                    state := WorkRequestSucceeded, loadBalancerID := "ocid1.loadbalancer.1" },
    getLoadBalancer := fun _ _ => Except.ok lb1,
    updateLoadBalancer := fun _ _ => Except.ok "ocid1.loadbalancerworkrequest.9",
    deleteLoadBalancer := fun _ => Except.ok "ocid1.loadbalancerworkrequest.9" }

/-- A context holding a populated resource. -/
def sysRes : Sys := { d := d1, workRequest := none, resource := some lb1, clock := 0 }

/-- A delete-phase work request (status not yet terminal). -/
def wrDel : WorkRequest :=
  { id := "ocid1.loadbalancerworkrequest.9", state := "ACCEPTED",
    loadBalancerID := "ocid1.loadbalancer.1" }

/-- A context holding only a work request. -/
def sysWr : Sys := { d := d1, workRequest := some wrDel, resource := none, clock := 0 }

/-- A context holding neither a resource nor a work request. -/
def sysNone : Sys := { d := d1, workRequest := none, resource := none, clock := 0 }

/-- The field map of an existing, active load balancer (delete/update
scenarios). -/
def dDel : ResourceData :=
  { rid := "ocid1.loadbalancer.1", compartment_id := "c1", display_name := "lb1",
    shape := "100Mbps", subnet_ids := ["s1", "s2"], id_field := "ocid1.loadbalancer.1",
    state := "ACTIVE", time_created := "2017-09-22 10:22:33 +0000 UTC",
    ip_addresses := ["10.0.0.1"], timeoutCreate := 4, timeoutDelete := 4 }

/-- A client whose delete call yields a work request and whose resource fetch
reports the distinguished not-found condition. -/
def cDelNF : Client :=
  { createLoadBalancer := fun _ _ _ _ => Except.error (Err.svc "unused"),
    getWorkRequest := fun _ _ => Except.ok wrDel,
    getLoadBalancer := fun _ _ => Except.error Err.notFound,
    updateLoadBalancer := fun _ _ => Except.error (Err.svc "unused"),
    deleteLoadBalancer := fun _ => Except.ok "ocid1.loadbalancerworkrequest.9" }

/-- As cDelNF, but the resource fetch observes the resource already Deleted. -/
def cDelOK : Client :=
  { cDelNF with getLoadBalancer := fun _ _ => Except.ok ({ lb1 with state := ResourceDeleted }) }

/-- As cDelNF, but the resource fetch fails with a transport error. -/
def cDelErr : Client :=
  { cDelNF with getLoadBalancer := fun _ _ => Except.error (Err.svc "boom") }

/-- As cDelNF, but the resource is observed Deleting forever. -/
def cDelPend : Client :=
  { cDelNF with getLoadBalancer := fun _ _ => Except.ok ({ lb1 with state := ResourceDeleting }) }

/-- A field map whose identifier is a work-request handle (an in-flight
operation is being tracked). -/
def dOp : ResourceData := { dDel with rid := "ocid1.loadbalancerworkrequest.1" }

/-- A context over dOp, as a fresh lifecycle call builds it. -/
def sysOp : Sys := { d := dOp, workRequest := none, resource := none, clock := 0 }

/-- A client whose operation-status fetch fails with a transport error. -/
def cWRErr : Client :=
  { cDelNF with getWorkRequest := fun _ _ => Except.error (Err.svc "boom") }

/-- A client whose operation-status fetch observes the operation still
Waiting. -/
def cWRPend : Client :=
  { cDelNF with getWorkRequest := fun _ _ => Except.ok ({ id := "ocid1.loadbalancerworkrequest.1", state := ResourceWaitingForWorkRequest, loadBalancerID := "" }) }

/-- A succeeded work request carrying the resulting resource handle. -/
def wrSucc : WorkRequest :=
  { id := "ocid1.loadbalancerworkrequest.1", state := WorkRequestSucceeded,
    loadBalancerID := "ocid1.loadbalancer.1" }

/-- A client whose operation-status fetch observes Succeeded with the
resource handle, and whose resource fetch yields the Active resource. -/
def cHand : Client :=
  { cDelNF with getWorkRequest := fun _ _ => Except.ok wrSucc, getLoadBalancer := fun _ _ => Except.ok lb1 }

/-- A client whose operation-status fetch observes Succeeded but with a
malformed resulting handle (carrying neither prefix). -/
def cBadHand : Client :=
  { cDelNF with getWorkRequest := fun _ _ => Except.ok ({ wrSucc with loadBalancerID := "bogus" }) }

/-- A field map whose identifier carries neither recognized prefix. -/
def dBad : ResourceData := { dDel with rid := "bogus" }

/-- A client whose update call yields a fresh work request. -/
def cUpd : Client :=
  { cDelNF with updateLoadBalancer := fun _ _ => Except.ok "ocid1.loadbalancerworkrequest.9" }

/-! Helper lemmas about the identifier prefixes. -/

/-- A string carrying the work-request prefix is non-empty. -/
theorem hasPre_wr_ne_empty {s : String}
    (h : hasPre s "ocid1.loadbalancerworkrequest." = true) : s ≠ "" := by
  intro he
  subst he
  revert h
  decide

/-- A string carrying the resource prefix is non-empty. -/
theorem hasPre_lb_ne_empty {s : String}
    (h : hasPre s "ocid1.loadbalancer." = true) : s ≠ "" := by
  intro he
  subst he
  revert h
  decide

/-- The two identifier prefixes are mutually exclusive: a string carrying the
resource prefix does not carry the work-request prefix. -/
theorem hasPre_lb_not_wr {s : String}
    (h : hasPre s "ocid1.loadbalancer." = true) :
    hasPre s "ocid1.loadbalancerworkrequest." = false := by
  unfold hasPre at h ⊢
  rw [List.isPrefixOf_iff_prefix] at h
  cases hw : List.isPrefixOf "ocid1.loadbalancerworkrequest.".data s.data with
  | false => rfl
  | true =>
    exfalso
    rw [List.isPrefixOf_iff_prefix] at hw
    rcases List.prefix_or_prefix_of_prefix h hw with h1 | h1 <;>
      exact absurd h1 (by decide)

/-- A refresh function that keeps yielding a pending, non-target state while
preserving an invariant makes waitFor exhaust its fuel and fail with Timeout,
still within the invariant. -/
theorem waitFor_timeout_of_pending (pend targ : List String)
    (refresh : Sys → Sys × Option GoFail) (stateOf : Sys → String) (P : Sys → Prop)
    (hstep : ∀ s, P s → ∃ s', refresh s = (s', none) ∧ P s' ∧
      stateOf s' ∉ targ ∧ stateOf s' ∈ pend) :
    ∀ fuel s, P s →
      ∃ s', waitFor pend targ refresh stateOf fuel s = (s', some (GoFail.err Err.timeout)) ∧
        P s' := by
  intro fuel
  induction fuel with
  | zero => exact fun s hP => ⟨s, rfl, hP⟩
  | succ n ih =>
    intro s hP
    obtain ⟨s', hr, hP', ht, hp⟩ := hstep s hP
    obtain ⟨s'', hw, hP''⟩ := ih s' hP'
    exact ⟨s'', by simp [waitFor, hr, ht, hp, hw], hP''⟩

/-- C6: the composite-state derivation is pure (a function of the context
alone) and returns the resource's lifecycle state whenever a resource is
present; otherwise the operation's status whenever an operation status is
present; otherwise the empty string. -/
theorem composite_state_derivation (s : Sys) :
    (∀ r, s.resource = some r → State s = r.state) ∧
    (s.resource = none → ∀ wr, s.workRequest = some wr → State s = wr.state) ∧
    (s.resource = none → s.workRequest = none → State s = "") := by
  refine ⟨?_, ?_, ?_⟩ <;> intros <;> simp_all [State]

/-- Witness for C6: the three cases of the composite-state derivation
evaluated at concrete contexts. -/
theorem composite_state_derivation_witness :
    State sysRes = lb1.state ∧ State sysWr = wrDel.state ∧ State sysNone = "" :=
  ⟨(composite_state_derivation sysRes).1 lb1 rfl,
   (composite_state_derivation sysWr).2.1 rfl wrDel rfl,
   (composite_state_derivation sysNone).2.2 rfl rfl⟩

/-- C10: the identifier accessor returns the cached resource's handle
whenever a resource with a non-empty handle is present; otherwise, when an
operation is tracked, the operation's resulting resource handle if its
status is Succeeded and the operation handle itself for any other status;
with neither present, the empty string.  In particular (last conjunct), for
an already-Succeeded tracked operation it reports either a non-empty resource
handle or the operation's resulting handle — never the operation handle
because the operation succeeded. -/
theorem id_accessor (s : Sys) :
    (∀ r, s.resource = some r → r.id ≠ "" → ID s = r.id) ∧
    ((s.resource = none ∨ ∃ r, s.resource = some r ∧ r.id = "") →
      ∀ wr, s.workRequest = some wr →
        ID s = (if wr.state = WorkRequestSucceeded then wr.loadBalancerID else wr.id)) ∧
    ((s.resource = none ∨ ∃ r, s.resource = some r ∧ r.id = "") →
      s.workRequest = none → ID s = "") ∧
    (∀ wr, s.workRequest = some wr → wr.state = WorkRequestSucceeded →
      (∃ r, s.resource = some r ∧ r.id ≠ "" ∧ ID s = r.id) ∨
        ID s = wr.loadBalancerID) := by
  refine ⟨?_, ?_, ?_, ?_⟩
  · intro r hr hne
    simp [ID, hr, hne]
  · rintro (h | ⟨r, hr, hid⟩) wr hwr
    · simp [ID, h, hwr]
    · simp [ID, hr, hid, hwr]
  · rintro (h | ⟨r, hr, hid⟩) hwr
    · simp [ID, h, hwr]
    · simp [ID, hr, hid, hwr]
  · intro wr hwr hst
    match hr : s.resource with
    | none => exact Or.inr (by simp [ID, hr, hwr, hst])
    | some r =>
      by_cases hne : r.id = ""
      · exact Or.inr (by simp [ID, hr, hwr, hst, hne])
      · exact Or.inl ⟨r, rfl, hne, by simp [ID, hr, hne]⟩

/-- Witness for C10: the identifier accessor evaluated at concrete contexts
covering the resource, tracked-operation and empty cases. -/
theorem id_accessor_witness :
    ID sysRes = lb1.id ∧
    ID sysWr = (if wrDel.state = WorkRequestSucceeded then wrDel.loadBalancerID else wrDel.id) ∧
    ID sysNone = "" :=
  ⟨(id_accessor sysRes).1 lb1 rfl (by decide),
   (id_accessor sysWr).2.1 (Or.inl rfl) wrDel rfl,
   (id_accessor sysNone).2.2.1 (Or.inl rfl) rfl⟩

/-- C7: materialize (SetData) leaves every external field unchanged when the
cached resource is absent or carries an empty handle; when the resource is
populated it overwrites all nine tracked fields — the identifier plus
compartment_id, display_name, shape, subnet_ids, id, state, time_created in
its fixed textual rendering, and ip_addresses extracted in order — so that
re-reading each field yields exactly the resource's corresponding value. -/
theorem materialize_round_trip (s : Sys) :
    ((s.resource = none ∨ ∃ r, s.resource = some r ∧ r.id = "") → SetData s = s) ∧
    (∀ r, s.resource = some r → r.id ≠ "" →
      (SetData s).d.rid = r.id ∧
      (SetData s).d.compartment_id = r.compartmentID ∧
      (SetData s).d.display_name = r.displayName ∧
      (SetData s).d.shape = r.shape ∧
      (SetData s).d.subnet_ids = r.subnetIDs ∧
      (SetData s).d.id_field = r.id ∧
      (SetData s).d.state = r.state ∧
      (SetData s).d.time_created = r.timeCreated.str ∧
      (SetData s).d.ip_addresses = r.ipAddresses.map (fun a => a.ipAddress)) := by
  constructor
  · rintro (h | ⟨r, hr, hid⟩)
    · simp [SetData, h]
    · simp [SetData, hr, hid]
  · intro r hr hid
    simp [SetData, hr, hid]

/-- Witness for C7: the no-op case at a resource-free context and the
full-overwrite round trip at a populated resource. -/
theorem materialize_round_trip_witness :
    SetData sysWr = sysWr ∧
    (SetData sysRes).d.rid = lb1.id ∧
    (SetData sysRes).d.subnet_ids = lb1.subnetIDs ∧
    (SetData sysRes).d.state = lb1.state ∧
    (SetData sysRes).d.time_created = lb1.timeCreated.str ∧
    (SetData sysRes).d.ip_addresses = lb1.ipAddresses.map (fun a => a.ipAddress) := by
  have h := (materialize_round_trip sysRes).2 lb1 rfl (by decide)
  exact ⟨(materialize_round_trip sysWr).1 (Or.inl rfl),
    h.1, h.2.2.2.2.1, h.2.2.2.2.2.2.1, h.2.2.2.2.2.2.2.1, h.2.2.2.2.2.2.2.2⟩

/-- C4: for an empty identity string, and for any identity string that
(after possible handoff) carries neither the operation prefix nor the
resource prefix, the lifecycle read Get stops with the invariant-violation
failure — the Go panic the spec's taxonomy (sections 7 and 9) calls
InvalidState — without attempting any resource fetch (the cached resource is
left untouched and the result does not consult the resource-fetch call). -/
theorem get_invalid_identity (c : Client) (s : Sys) :
    (s.d.rid = "" → Get c s = (s, some (GoFail.panicked msgEmptyID))) ∧
    (s.d.rid ≠ "" → hasPre s.d.rid "ocid1.loadbalancerworkrequest." = false →
      hasPre s.d.rid "ocid1.loadbalancer." = false →
      Get c s = (s, some (GoFail.panicked msgBadLoadBalancerID))) ∧
    (∀ wr, hasPre s.d.rid "ocid1.loadbalancerworkrequest." = true →
      c.getWorkRequest s.clock s.d.rid = Except.ok wr →
      wr.state = WorkRequestSucceeded → wr.loadBalancerID ≠ "" →
      hasPre wr.loadBalancerID "ocid1.loadbalancer." = false →
      ∃ s', Get c s = (s', some (GoFail.panicked msgBadLoadBalancerID)) ∧
        s'.resource = s.resource ∧ s'.d.rid = wr.loadBalancerID) := by
  refine ⟨?_, ?_, ?_⟩
  · intro he
    simp [Get, he]
  · intro hne hwr hlb
    simp [Get, hne, hwr, fetchResource, hlb]
  · intro wr hpre hwr hst hid hlb
    have hne : s.d.rid ≠ "" := hasPre_wr_ne_empty hpre
    refine ⟨{ s with workRequest := none, clock := s.clock + 1, d := { s.d with state := wr.state, rid := wr.loadBalancerID } }, ?_, rfl, rfl⟩
    simp [Get, hne, hpre, hwr, hst, hid, fetchResource, hlb]

/-- Witness for C4: the three invalid-identity cases at concrete inputs —
an empty identifier, an identifier with neither prefix, and a succeeded
operation whose resulting handle carries neither prefix. -/
theorem get_invalid_identity_witness :
    Get cDelNF sysNone = (sysNone, some (GoFail.panicked msgEmptyID)) ∧
    Get cDelNF { sysOp with d := dBad } =
      ({ sysOp with d := dBad }, some (GoFail.panicked msgBadLoadBalancerID)) ∧
    ∃ s', Get cBadHand sysOp = (s', some (GoFail.panicked msgBadLoadBalancerID)) ∧
      s'.resource = sysOp.resource ∧ s'.d.rid = "bogus" :=
  ⟨(get_invalid_identity cDelNF sysNone).1 rfl,
   (get_invalid_identity cDelNF { sysOp with d := dBad }).2.1
     (by decide) (by decide) (by decide),
   (get_invalid_identity cBadHand sysOp).2.2 { wrSucc with loadBalancerID := "bogus" }
     (by decide) rfl rfl (by decide) (by decide)⟩

/-- C2: handoff is one-way — whenever Get observes the tracked operation's
status as Succeeded with a non-empty resulting handle, it replaces the
external identifier with that handle and clears the cached operation status;
moreover, unless the call aborted with a panic, the adopted identifier does
not carry the operation prefix, so no later resolution in the context takes
the operation branch (hence never queries the original operation identity
again). -/
theorem handoff_one_way (c : Client) (s : Sys) (wr : WorkRequest)
    (hpre : hasPre s.d.rid "ocid1.loadbalancerworkrequest." = true)
    (hwr : c.getWorkRequest s.clock s.d.rid = Except.ok wr)
    (hst : wr.state = WorkRequestSucceeded)
    (hid : wr.loadBalancerID ≠ "") :
    (Get c s).1.d.rid = wr.loadBalancerID ∧
    (Get c s).1.workRequest = none ∧
    ((∀ m, (Get c s).2 ≠ some (GoFail.panicked m)) →
      hasPre (Get c s).1.d.rid "ocid1.loadbalancerworkrequest." = false) := by
  have hne : s.d.rid ≠ "" := hasPre_wr_ne_empty hpre
  cases hlb : hasPre wr.loadBalancerID "ocid1.loadbalancer." with
  | false =>
    refine ⟨?_, ?_, ?_⟩
    · simp [Get, hne, hpre, hwr, hst, hid, fetchResource, hlb]
    · simp [Get, hne, hpre, hwr, hst, hid, fetchResource, hlb]
    · intro hnp
      exact absurd
        (by simp [Get, hne, hpre, hwr, hst, hid, fetchResource, hlb] :
          (Get c s).2 = some (GoFail.panicked msgBadLoadBalancerID))
        (hnp msgBadLoadBalancerID)
  | true =>
    have hnw := hasPre_lb_not_wr hlb
    cases hg : c.getLoadBalancer (s.clock + 1) wr.loadBalancerID with
    | error e =>
      refine ⟨?_, ?_, fun _ => ?_⟩ <;>
        simp [Get, hne, hpre, hwr, hst, hid, fetchResource, hlb, hg, hnw]
    | ok lb =>
      refine ⟨?_, ?_, fun _ => ?_⟩ <;>
        simp [Get, hne, hpre, hwr, hst, hid, fetchResource, hlb, hg, hnw]

/-- Witness for C2: the handoff at a concrete succeeded operation — the
identifier becomes the resource handle, the cached status is cleared, and
the adopted identifier no longer carries the operation prefix. -/
theorem handoff_one_way_witness :
    (Get cHand sysOp).1.d.rid = wrSucc.loadBalancerID ∧
    (Get cHand sysOp).1.workRequest = none ∧
    ((∀ m, (Get cHand sysOp).2 ≠ some (GoFail.panicked m)) →
      hasPre (Get cHand sysOp).1.d.rid "ocid1.loadbalancerworkrequest." = false) :=
  handoff_one_way cHand sysOp wrSucc (by decide) rfl rfl (by decide)

/-- C5 (failing case): a failed operation-status fetch on an
operation-prefixed identity does not propagate as the refresh error — the
code assigns the nil result to the work-request slot and immediately
dereferences it (loadbalancer_resource_crud.go:170-172), a nil-pointer
panic.  Evaluated at the concrete failing input: Get aborts with the runtime
panic and returns no error value at all. -/
theorem get_status_fetch_error_is_nil_panic :
    Get cWRErr sysOp =
      ({ sysOp with workRequest := none, clock := 1 },
        some (GoFail.panicked msgNilWorkRequest)) ∧
    ∀ e : Err, (Get cWRErr sysOp).2 ≠ some (GoFail.err e) := by
  have h1 : Get cWRErr sysOp =
      ({ sysOp with workRequest := none, clock := 1 },
        some (GoFail.panicked msgNilWorkRequest)) := by decide
  refine ⟨h1, ?_⟩
  intro e he
  rw [h1] at he
  simp at he

/-- C8 counterexample: a successful Update caches the new operation's status
(here "ACCEPTED") without polling, but the persisted state field keeps its
prior value "ACTIVE" — it is NOT left as the operation's last observed
status, refuting the claim's last clause at this concrete input. -/
theorem update_persisted_state_counterexample :
    (updateLoadBalancer cUpd dDel).2 = none ∧
    (updateLoadBalancer cUpd dDel).1.workRequest = some wrDel ∧
    wrDel.state = "ACCEPTED" ∧
    (updateLoadBalancer cUpd dDel).1.d.state = "ACTIVE" ∧
    (updateLoadBalancer cUpd dDel).1.d.state ≠ wrDel.state := by
  decide

/-- C8 amended: Update issues the update mutation with the display-name
option, fetches and caches the new operation handle's status, and returns
without polling to any terminal state; the persisted field map — including
the state field — is left entirely unchanged, while the operation's last
observed status is reported by the composite-state accessor. -/
theorem update_fire_and_capture (c : Client) (d : ResourceData)
    (wid : String) (wr : WorkRequest)
    (hupd : c.updateLoadBalancer d.rid (updateOptionsDisplayName d) = Except.ok wid)
    (hgwr : c.getWorkRequest 1 wid = Except.ok wr) :
    updateLoadBalancer c d =
      ({ d := d, workRequest := some wr, resource := none, clock := 2 }, none) ∧
    State (updateLoadBalancer c d).1 = wr.state := by
  have h1 : updateLoadBalancer c d =
      ({ d := d, workRequest := some wr, resource := none, clock := 2 }, none) := by
    simp [updateLoadBalancer, Update, hupd, hgwr, SetData]
  exact ⟨h1, by rw [h1]; simp [State]⟩

/-- Witness for C8 (amended): the concrete update run — the field map is
unchanged, the new work request is cached, and the composite state reports
its status. -/
theorem update_fire_and_capture_witness :
    updateLoadBalancer cUpd dDel =
      ({ d := dDel, workRequest := some wrDel, resource := none, clock := 2 }, none) ∧
    State (updateLoadBalancer cUpd dDel).1 = wrDel.state :=
  update_fire_and_capture cUpd dDel "ocid1.loadbalancerworkrequest.9" wrDel rfl rfl

/-- C9: when Read resolves an operation-prefixed identity whose status is
not Succeeded, it stops the cycle successfully without attempting any
resource fetch (the resource slot stays empty and the result does not
consult the resource-fetch call), and the only persisted field modified is
the composite state field, set to the operation's status. -/
theorem read_pending_operation (c : Client) (d : ResourceData) (wr : WorkRequest)
    (hpre : hasPre d.rid "ocid1.loadbalancerworkrequest." = true)
    (hwr : c.getWorkRequest 0 d.rid = Except.ok wr)
    (hst : wr.state ≠ WorkRequestSucceeded) :
    readLoadBalancer c d =
      ({ d := { d with state := wr.state }, workRequest := some wr, resource := none, clock := 1 }, none) := by
  have hne : d.rid ≠ "" := hasPre_wr_ne_empty hpre
  simp [readLoadBalancer, Read, Get, hne, hpre, hwr, hst, SetData]

/-- C3: Delete's outcome over a resource-prefixed identifier, by cases on
what the delete-wait's underlying fetch reports — (i) the distinguished
not-found condition: Delete succeeds and the identifier is cleared; (ii) the
poll reaches the Deleted target: Delete succeeds and clears the identifier;
(iii) any other fetch error: Delete surfaces exactly that error and leaves
the identifier unchanged; (iv) the resource stays Deleting until the
configured timeout elapses: Delete surfaces Timeout and leaves the
identifier unchanged. -/
theorem delete_outcomes (c : Client) (d : ResourceData) (wid : String)
    (wr : WorkRequest) (n : Nat)
    (hpre : hasPre d.rid "ocid1.loadbalancer." = true)
    (hdel : c.deleteLoadBalancer d.rid = Except.ok wid)
    (hgwr : c.getWorkRequest 1 wid = Except.ok wr)
    (htimeout : d.timeoutDelete = n + 1) :
    (c.getLoadBalancer 2 d.rid = Except.error Err.notFound →
      (deleteLoadBalancer c d).2 = none ∧ (deleteLoadBalancer c d).1.d.rid = "") ∧
    (∀ lb, c.getLoadBalancer 2 d.rid = Except.ok lb → lb.state = ResourceDeleted →
      (deleteLoadBalancer c d).2 = none ∧ (deleteLoadBalancer c d).1.d.rid = "") ∧
    (∀ e, c.getLoadBalancer 2 d.rid = Except.error e → e ≠ Err.notFound →
      (deleteLoadBalancer c d).2 = some (GoFail.err e) ∧
      (deleteLoadBalancer c d).1.d.rid = d.rid) ∧
    (∀ lbp, (∀ t, c.getLoadBalancer t d.rid = Except.ok lbp) →
      lbp.state = ResourceDeleting →
      (deleteLoadBalancer c d).2 = some (GoFail.err Err.timeout) ∧
      (deleteLoadBalancer c d).1.d.rid = d.rid) := by
  have hne : d.rid ≠ "" := hasPre_lb_ne_empty hpre
  have hnw : hasPre d.rid "ocid1.loadbalancerworkrequest." = false := hasPre_lb_not_wr hpre
  refine ⟨?_, ?_, ?_, ?_⟩
  · intro hnf
    simp [deleteLoadBalancer, Delete, hdel, hgwr, WaitForDeletedState, htimeout,
      waitFor, Get, hne, hnw, hpre, fetchResource, hnf, FilterMissingResourceError,
      VoidState]
  · intro lb hok hst
    simp +decide [deleteLoadBalancer, Delete, hdel, hgwr, WaitForDeletedState,
      htimeout, waitFor, Get, hne, hnw, hpre, fetchResource, hok, State, hst,
      FilterMissingResourceError, VoidState]
  · intro e hce hene
    simp [deleteLoadBalancer, Delete, hdel, hgwr, WaitForDeletedState, htimeout,
      waitFor, Get, hne, hnw, hpre, fetchResource, hce, FilterMissingResourceError,
      hene, VoidState]
  · intro lbp hlbp hst
    have hstep : ∀ s : Sys, s.d.rid = d.rid →
        ∃ s', Get c s = (s', none) ∧ s'.d.rid = d.rid ∧
          State s' ∉ [ResourceDeleted] ∧
          State s' ∈ [ResourceWaitingForWorkRequest, ResourceDeleting] := by
      intro s hs
      refine ⟨{ s with resource := some lbp, clock := s.clock + 1 }, ?_, hs, ?_, ?_⟩
      · simp [Get, hs, hne, hnw, hpre, fetchResource, hlbp]
      · simp +decide [State, hst]
      · simp +decide [State, hst]
    obtain ⟨s', hw, hP⟩ := waitFor_timeout_of_pending
      [ResourceWaitingForWorkRequest, ResourceDeleting] [ResourceDeleted]
      (Get c) State (fun s => s.d.rid = d.rid) hstep (n + 1)
      { d := d, workRequest := some wr, resource := none, clock := 2 } rfl
    have hd : deleteLoadBalancer c d = (s', some (GoFail.err Err.timeout)) := by
      simp [deleteLoadBalancer, Delete, hdel, hgwr, WaitForDeletedState, htimeout,
        hw, FilterMissingResourceError]
    rw [hd]
    exact ⟨rfl, hP⟩

/-- Witness for C3: the four delete outcomes at concrete clients — not-found
absorbed with cleared identifier, Deleted reached with cleared identifier, a
transport error surfaced with the identifier intact, and a never-ending
Deleting poll timing out with the identifier intact. -/
theorem delete_outcomes_witness :
    ((deleteLoadBalancer cDelNF dDel).2 = none ∧
      (deleteLoadBalancer cDelNF dDel).1.d.rid = "") ∧
    ((deleteLoadBalancer cDelOK dDel).2 = none ∧
      (deleteLoadBalancer cDelOK dDel).1.d.rid = "") ∧
    ((deleteLoadBalancer cDelErr dDel).2 = some (GoFail.err (Err.svc "boom")) ∧
      (deleteLoadBalancer cDelErr dDel).1.d.rid = dDel.rid) ∧
    ((deleteLoadBalancer cDelPend dDel).2 = some (GoFail.err Err.timeout) ∧
      (deleteLoadBalancer cDelPend dDel).1.d.rid = dDel.rid) :=
  ⟨(delete_outcomes cDelNF dDel "ocid1.loadbalancerworkrequest.9" wrDel 3
      (by decide) rfl rfl rfl).1 rfl,
   (delete_outcomes cDelOK dDel "ocid1.loadbalancerworkrequest.9" wrDel 3
      (by decide) rfl rfl rfl).2.1 { lb1 with state := ResourceDeleted } rfl rfl,
   (delete_outcomes cDelErr dDel "ocid1.loadbalancerworkrequest.9" wrDel 3
      (by decide) rfl rfl rfl).2.2.1 (Err.svc "boom") rfl (by decide),
   (delete_outcomes cDelPend dDel "ocid1.loadbalancerworkrequest.9" wrDel 3
      (by decide) rfl rfl rfl).2.2.2 { lb1 with state := ResourceDeleting }
      (fun _ => rfl) rfl⟩

/-- C1: the end-to-end Create scenario — the create mutation returns an
operation handle, the first status poll observes Waiting, the next observes
Succeeded with the resource handle, and the fetched resource is Active; then
Create succeeds, the externally-visible identifier equals the final resource
handle "ocid1.loadbalancer.1" and the persisted state field equals Active.
The poll inside Create is WaitForCreatedState, which runs waitFor with
pending={WaitingForWorkRequest, Creating}, target={Active} and the
configured creation timeout (d.timeoutCreate, here any positive bound). -/
theorem create_end_to_end (c : Client) (d : ResourceData) (lb : LoadBalancer) (n : Nat)
    (htimeout : d.timeoutCreate = n + 1)
    (hcreate : c.createLoadBalancer d.compartment_id d.shape d.subnet_ids d.display_name =
      Except.ok "ocid1.loadbalancerworkrequest.1")
    (hwr1 : c.getWorkRequest 1 "ocid1.loadbalancerworkrequest.1" =
      Except.ok { id := "ocid1.loadbalancerworkrequest.1", state := ResourceWaitingForWorkRequest, loadBalancerID := "" })
    (hwr2 : c.getWorkRequest 2 "ocid1.loadbalancerworkrequest.1" =
      Except.ok { id := "ocid1.loadbalancerworkrequest.1", state := WorkRequestSucceeded, loadBalancerID := "ocid1.loadbalancer.1" })
    (hlb : c.getLoadBalancer 3 "ocid1.loadbalancer.1" = Except.ok lb)
    (hlbid : lb.id = "ocid1.loadbalancer.1")
    (hlbstate : lb.state = ResourceActive) :
    (createLoadBalancer c d).2 = none ∧
    (createLoadBalancer c d).1.d.rid = "ocid1.loadbalancer.1" ∧
    (createLoadBalancer c d).1.d.state = ResourceActive := by
  simp +decide [createLoadBalancer, Create, hcreate, hwr1, State, ID,
    WaitForCreatedState, htimeout, waitFor, Get, hwr2, fetchResource, hlb,
    SetData, hlbid, hlbstate]

/-- Witness for C1: the scenario hypotheses discharged at the concrete
client c1 and field map d1 of spec section 8.6. -/
theorem create_end_to_end_witness :
    (createLoadBalancer c1 d1).2 = none ∧
    (createLoadBalancer c1 d1).1.d.rid = "ocid1.loadbalancer.1" ∧
    (createLoadBalancer c1 d1).1.d.state = ResourceActive :=
  create_end_to_end c1 d1 lb1 3 rfl rfl rfl rfl rfl rfl rfl

/-- Witness for C9: the concrete pending-operation read — success, no
resource fetched, only the state field rewritten. -/
theorem read_pending_operation_witness :
    readLoadBalancer cWRPend dOp =
      ({ d := { dOp with state := ResourceWaitingForWorkRequest },
         workRequest := some { id := "ocid1.loadbalancerworkrequest.1", state := ResourceWaitingForWorkRequest, loadBalancerID := "" },
         resource := none, clock := 1 }, none) :=
  read_pending_operation cWRPend dOp
    { id := "ocid1.loadbalancerworkrequest.1", state := ResourceWaitingForWorkRequest, loadBalancerID := "" }
    (by decide) rfl (by decide)

end LB
